import Mathlib

/-!
A shallow embedding of the reminder store and submission pipeline of
`src/reminder-system.tsx` (the `ReminderSystem` component together with its
`ReminderCard` form and `UpcomingReminders` view).

Modelling conventions:
* JS strings are Lean `String`s.  `String.prototype.trim` is modelled by
  `jsTrim`, stripping the ASCII whitespace characters from both ends.
* An instant (`new Date(x).getTime()`, `Date.now()`) is an `Int` of epoch
  milliseconds.  The host's date parser is an explicit parameter
  `g : String → Int`; claims about times always speak about parseable
  time strings, which is what a total `g` represents.
* `Array.prototype.sort` with the comparator
  `(a, b) => new Date(a.time).getTime() - new Date(b.time).getTime()`
  is required by ECMAScript to be stable, and a stable sort for a total
  preorder has a unique output; it is embedded as `List.insertionSort`
  with the relation `leTime g`, which is stable in exactly this sense.
* React `useState`: a handler reads the state values captured by its
  closure at render time; `set*` calls only produce the state of the next
  render.  `handleSubmit` is therefore a function from the pre-submission
  state (plus the ambient clock and the outcome of the permission request)
  to the next state together with the effects it performed.
-/

namespace TaskReminder

/-- The tri-state web `Notification.permission` value. -/
inductive NotificationPermission
  | default
  | granted
  | denied
deriving DecidableEq, Repr

/-- The `Reminder` interface of `reminder-system.tsx` (lines 18–24). -/
structure Reminder where
  id : String
  task : String
  time : String
  notifications : Bool
  completed : Bool
deriving DecidableEq, Repr

/-- The ASCII whitespace characters stripped by `String.prototype.trim`. -/
def jsWhitespace (c : Char) : Bool :=
  c = ' ' || c = '\t' || c = '\n' || c = '\r' || c = '\x0b' || c = '\x0c'

/-- `s.trim()`: strip leading and trailing whitespace. -/
def jsTrim (s : String) : String :=
  String.mk (((s.data.dropWhile jsWhitespace).reverse.dropWhile jsWhitespace).reverse)

/-- The sort relation of `addReminder`'s comparator
`new Date(a.time).getTime() - new Date(b.time).getTime()`, for host date
parser `g`. -/
def leTime (g : String → Int) (a b : Reminder) : Prop :=
  g a.time ≤ g b.time

instance (g : String → Int) : DecidableRel (leTime g) :=
  fun a b => inferInstanceAs (Decidable (g a.time ≤ g b.time))

instance (g : String → Int) : IsTotal Reminder (leTime g) :=
  ⟨fun a b => le_total (g a.time) (g b.time)⟩

instance (g : String → Int) : IsTrans Reminder (leTime g) :=
  ⟨fun _ _ _ hab hbc => le_trans hab hbc⟩

/-- `addReminder` (lines 46–48): append the new reminder, then sort the whole
collection ascending by parsed time with the host's stable sort. -/
def addReminder (g : String → Int) (prev : List Reminder) (r : Reminder) : List Reminder :=
  List.insertionSort (leTime g) (prev ++ [r])

/-- `deleteReminder` (lines 50–56): keep every reminder whose id differs. -/
def deleteReminder (id : String) (prev : List Reminder) : List Reminder :=
  prev.filter (fun r => r.id != id)

/-- `toggleComplete` (lines 58–62): flip `completed` on the matching id. -/
def toggleComplete (id : String) (prev : List Reminder) : List Reminder :=
  prev.map (fun r => if r.id = id then { r with completed := !r.completed } else r)

/-- The filter of `UpcomingReminders` (lines 310–314): keep a reminder when
its time is strictly in the future or it is not completed. -/
def activeReminders (g : String → Int) (now : Int) (reminders : List Reminder) : List Reminder :=
  reminders.filter (fun r => decide (now < g r.time) || !r.completed)

/-- The collection is in non-decreasing order of parsed time. -/
def SortedByTime (g : String → Int) (l : List Reminder) : Prop :=
  List.Sorted (leTime g) l

/-- The per-field error record of the form (`errors` state, line 81): a field
is absent from the JS object exactly when the `Option` is `none`. -/
structure FieldErrors where
  task : Option String
  time : Option String
  notification : Option String
deriving DecidableEq, Repr

/-- The empty error object `{}`. -/
def emptyErrors : FieldErrors :=
  { task := none, time := none, notification := none }

/-- `Object.keys(newErrors).length === 0` (line 141). -/
def noErrors (e : FieldErrors) : Bool :=
  e.task.isNone && e.time.isNone && e.notification.isNone

/-- The `ReminderCard` state captured by `handleSubmit`'s closure, together
with the store collection it mutates through the `addReminder` prop.
`perm` is the `notificationPermission` state value. -/
structure CardState where
  task : String
  time : String
  notifications : Bool
  errors : FieldErrors
  perm : NotificationPermission
  reminders : List Reminder
deriving DecidableEq, Repr

/-- `validateForm` (lines 118–142), for host parser `g` and current instant
`now`: each rule is checked independently on the closure state. -/
def validateForm (g : String → Int) (now : Int) (s : CardState) : FieldErrors :=
  { task :=
      if jsTrim s.task = "" then some "Please enter a task description" else none
    time :=
      if s.time = "" then some "Please select a time for your reminder"
      else if g s.time ≤ now then some "Please select a future time"
      else none
    notification :=
      if s.notifications = true ∧ s.perm = NotificationPermission.denied then
        some "Notifications are blocked by your browser"
      else none }

/-- The outcome of one `handleSubmit` run: the next render's state, the
reminder passed to `addReminder` (if any), and whether
`showBrowserNotification` actually constructed a browser `Notification`. -/
structure SubmitResult where
  state : CardState
  added : Option Reminder
  notified : Bool
deriving DecidableEq, Repr

/-- The tail of `handleSubmit` (lines 168–197): build the reminder with
`id = Date.now().toString()` and `completed = false`, add it to the store,
show the browser notification when `notifications && notificationPermission
=== "granted"` — where `notificationPermission` is the STALE closure value
`s.perm`, not the value just obtained from the permission request — and
reset the draft.  `pendingPerm` is the permission state of the next render
(updated when the request path ran). -/
def submitSuccess (g : String → Int) (now : Int) (s : CardState)
    (pendingPerm : NotificationPermission) : SubmitResult :=
  let r : Reminder :=
    { id := toString now
      task := s.task
      time := s.time
      notifications := s.notifications
      completed := false }
  { state :=
      { task := ""
        time := ""
        notifications := s.notifications
        errors := emptyErrors
        perm := pendingPerm
        reminders := addReminder g s.reminders r }
    added := some r
    notified := s.notifications && decide (s.perm = NotificationPermission.granted) }

/-- `handleSubmit` (lines 144–208).  `requestOutcome` is the permission the
host resolves `Notification.requestPermission()` to; the source maps a
missing Notification API and a rejected promise to `"denied"`, so every
host behaviour is some value of this parameter.  Within the run, reads of
`notificationPermission` see the closure value `s.perm`; the requested
permission only reaches the next render's state. -/
def handleSubmit (g : String → Int) (now : Int)
    (requestOutcome : NotificationPermission) (s : CardState) : SubmitResult :=
  let e := validateForm g now s
  if noErrors e then
    if s.notifications = true ∧ s.perm ≠ NotificationPermission.granted then
      if requestOutcome ≠ NotificationPermission.granted then
        { state :=
            { s with
              perm := requestOutcome
              errors :=
                { e with
                  notification := some "Please allow notifications to receive reminders" } }
          added := none
          notified := false }
      else
        submitSuccess g now s requestOutcome
    else
      submitSuccess g now s s.perm
  else
    { state := { s with errors := e }, added := none, notified := false }

/-! ### Concrete data used by the witnesses -/

/-- A concrete host date parser mapping the time strings of the examples. -/
def exTime : String → Int :=
  fun s => if s = "t1" then 100 else if s = "t2" then 200 else 0

/-- A concrete reminder at time `"t1"`. -/
def exR1 : Reminder :=
  { id := "a", task := "water plants", time := "t1", notifications := false, completed := false }

/-- A second concrete reminder, also at time `"t1"`. -/
def exR2 : Reminder :=
  { id := "b", task := "call mom", time := "t1", notifications := false, completed := false }

/-! ### Claims about the store operations -/

/-- C1: for every store state and parser, `addReminder` re-establishes
non-decreasing `time` order over the full collection, and `deleteReminder`
and `toggleComplete` preserve it. -/
theorem sorted_after_every_mutation (g : String → Int) (l : List Reminder)
    (r : Reminder) (i : String) :
    SortedByTime g (addReminder g l r) ∧
    (SortedByTime g l → SortedByTime g (deleteReminder i l)) ∧
    (SortedByTime g l → SortedByTime g (toggleComplete i l)) := by
  refine ⟨List.sorted_insertionSort (leTime g) (l ++ [r]), ?_, ?_⟩
  · intro h
    exact h.sublist (List.filter_sublist l)
  · intro h
    unfold toggleComplete
    rw [SortedByTime, List.Sorted, List.pairwise_map]
    refine h.imp ?_
    intro a b hab
    by_cases ha : a.id = i <;> by_cases hb : b.id = i <;>
      simpa [leTime, ha, hb] using hab

/-- Witness for C1 at a concrete store. -/
theorem sorted_after_every_mutation_witness :
    SortedByTime exTime (addReminder exTime [exR1] exR2) ∧
    SortedByTime exTime (deleteReminder "a" [exR1]) ∧
    SortedByTime exTime (toggleComplete "a" [exR1]) := by
  obtain ⟨h1, h2, h3⟩ := sorted_after_every_mutation exTime [exR1] exR2 "a"
  exact ⟨h1, h2 (by simp [SortedByTime]), h3 (by simp [SortedByTime])⟩

/-- C2: the active view contains a reminder exactly when it is in the
collection and its time is strictly in the future or it is not completed;
equivalently, it is excluded exactly when past (or due) and completed. -/
theorem activeReminders_mem_iff (g : String → Int) (now : Int)
    (l : List Reminder) (r : Reminder) :
    r ∈ activeReminders g now l ↔ r ∈ l ∧ (now < g r.time ∨ r.completed = false) := by
  simp [activeReminders, List.mem_filter]

/-- C5: ties on `time` are broken by insertion order: adding `r1` and then
`r2` with equal parsed times leaves `r1` before `r2` in the resulting list,
whatever the store held; over the empty store the result is exactly
`[r1, r2]`. -/
theorem add_tie_break_insertion_order (g : String → Int) (s : List Reminder)
    (r1 r2 : Reminder) (h : g r1.time = g r2.time) :
    List.Sublist [r1, r2] (addReminder g (addReminder g s r1) r2) ∧
    addReminder g (addReminder g [] r1) r2 = [r1, r2] := by
  constructor
  · unfold addReminder
    refine List.sublist_insertionSort (List.pairwise_pair.mpr (le_of_eq h)) ?_
    have h1 : List.Sublist [r1] (List.insertionSort (leTime g) (s ++ [r1])) := by
      rw [List.singleton_sublist, List.mem_insertionSort, List.mem_append]
      exact Or.inr (List.mem_singleton_self r1)
    simpa using h1.append (List.Sublist.refl [r2])
  · simp [addReminder, List.insertionSort, List.orderedInsert, leTime, h]

/-- Witness for C5: two concrete reminders sharing time `"t1"`. -/
theorem add_tie_break_insertion_order_witness :
    List.Sublist [exR1, exR2] (addReminder exTime (addReminder exTime [] exR1) exR2) ∧
    addReminder exTime (addReminder exTime [] exR1) exR2 = [exR1, exR2] :=
  add_tie_break_insertion_order exTime [] exR1 exR2 (by decide)

/-- C8: `deleteReminder` is idempotent, and deleting an id absent from the
collection leaves the collection unchanged. -/
theorem deleteReminder_idempotent (i : String) (l : List Reminder) :
    deleteReminder i (deleteReminder i l) = deleteReminder i l ∧
    ((∀ r ∈ l, r.id ≠ i) → deleteReminder i l = l) := by
  constructor
  · simp [deleteReminder, List.filter_filter]
  · intro h
    rw [deleteReminder, List.filter_eq_self]
    intro r hr
    simpa using h r hr

/-- Witness for C8: deleting an absent id from a concrete store. -/
theorem deleteReminder_idempotent_witness :
    deleteReminder "zzz" (deleteReminder "zzz" [exR1]) = deleteReminder "zzz" [exR1] ∧
    deleteReminder "zzz" [exR1] = [exR1] := by
  obtain ⟨h1, h2⟩ := deleteReminder_idempotent "zzz" [exR1]
  exact ⟨h1, h2 (by decide)⟩

/-- C9: `toggleComplete` is its own inverse on an id present in the
collection: applying it twice restores the original collection. -/
theorem toggleComplete_involutive (i : String) (l : List Reminder)
    (h : i ∈ l.map Reminder.id) :
    toggleComplete i (toggleComplete i l) = l := by
  have hf : ∀ r : Reminder,
      (fun r : Reminder => if r.id = i then { r with completed := !r.completed } else r)
        ((fun r : Reminder => if r.id = i then { r with completed := !r.completed } else r) r)
        = r := by
    intro r
    obtain ⟨rid, rtask, rtime, rnot, rcomp⟩ := r
    by_cases hr : rid = i <;> simp [hr]
  simp only [toggleComplete, List.map_map, Function.comp]
  exact List.map_id'' hf l

/-- Witness for C9: toggling a present id twice on a concrete store. -/
theorem toggleComplete_involutive_witness :
    toggleComplete "a" (toggleComplete "a" [exR1]) = [exR1] :=
  toggleComplete_involutive "a" [exR1] (by decide)

/-! ### Claims about validation and the submission pipeline -/

/-- C3: a draft whose task is empty or whitespace-only yields the task field
error, and the submission performs no store mutation. -/
theorem submit_blank_task_no_mutation (g : String → Int) (now : Int)
    (out : NotificationPermission) (s : CardState) (h : jsTrim s.task = "") :
    (handleSubmit g now out s).state.errors.task = some "Please enter a task description" ∧
    (handleSubmit g now out s).state.reminders = s.reminders ∧
    (handleSubmit g now out s).added = none := by
  have htask : (validateForm g now s).task = some "Please enter a task description" := by
    simp [validateForm, h]
  have hno : noErrors (validateForm g now s) = false := by
    simp [noErrors, htask]
  refine ⟨?_, ?_, ?_⟩ <;> simp [handleSubmit, hno, htask]

/-- A draft whose task is three spaces, over a non-empty store. -/
def exBlankState : CardState :=
  { task := "   ", time := "t1", notifications := false, errors := emptyErrors,
    perm := NotificationPermission.default, reminders := [exR1] }

/-- Witness for C3: submitting a whitespace-only task. -/
theorem submit_blank_task_no_mutation_witness :
    (handleSubmit exTime 50 NotificationPermission.denied exBlankState).state.errors.task
      = some "Please enter a task description" ∧
    (handleSubmit exTime 50 NotificationPermission.denied exBlankState).state.reminders
      = exBlankState.reminders ∧
    (handleSubmit exTime 50 NotificationPermission.denied exBlankState).added = none :=
  submit_blank_task_no_mutation exTime 50 NotificationPermission.denied exBlankState (by decide)

/-- C4: submitting with a missing time yields the missing-time field error
and creates nothing; submitting with a time that parses to an instant less
than or equal to the current instant (equality included) yields the
future-time field error and creates nothing; a strictly future time passes
the time validation. -/
theorem time_validation_strictly_future (g : String → Int) (now : Int)
    (out : NotificationPermission) (s : CardState) :
    (s.time = "" →
      (handleSubmit g now out s).state.errors.time
          = some "Please select a time for your reminder" ∧
      (handleSubmit g now out s).added = none) ∧
    (s.time ≠ "" → g s.time ≤ now →
      (handleSubmit g now out s).state.errors.time
          = some "Please select a future time" ∧
      (handleSubmit g now out s).added = none) ∧
    (s.time ≠ "" → now < g s.time → (validateForm g now s).time = none) := by
  refine ⟨fun h1 => ?_, fun h1 h2 => ?_, fun h1 h2 => ?_⟩
  · have ht : (validateForm g now s).time = some "Please select a time for your reminder" := by
      simp [validateForm, h1]
    have hno : noErrors (validateForm g now s) = false := by
      simp [noErrors, ht]
    constructor <;> simp [handleSubmit, hno, ht]
  · have ht : (validateForm g now s).time = some "Please select a future time" := by
      simp [validateForm, h1, h2]
    have hno : noErrors (validateForm g now s) = false := by
      simp [noErrors, ht]
    constructor <;> simp [handleSubmit, hno, ht]
  · simp [validateForm, h1, not_le.mpr h2]

/-- A draft with no time selected. -/
def exNoTimeState : CardState :=
  { task := "water plants", time := "", notifications := false, errors := emptyErrors,
    perm := NotificationPermission.default, reminders := [] }

/-- A draft whose time parses to exactly the current instant `100`. -/
def exEqualTimeState : CardState :=
  { task := "water plants", time := "t1", notifications := false, errors := emptyErrors,
    perm := NotificationPermission.default, reminders := [] }

/-- A draft whose time parses strictly after the current instant `100`. -/
def exFutureTimeState : CardState :=
  { task := "water plants", time := "t2", notifications := false, errors := emptyErrors,
    perm := NotificationPermission.default, reminders := [] }

/-- Witness for C4: missing time, time equal to now (rejected), and strictly
future time (accepted), all at the instant `100`. -/
theorem time_validation_strictly_future_witness :
    ((handleSubmit exTime 100 NotificationPermission.denied exNoTimeState).state.errors.time
        = some "Please select a time for your reminder" ∧
      (handleSubmit exTime 100 NotificationPermission.denied exNoTimeState).added = none) ∧
    ((handleSubmit exTime 100 NotificationPermission.denied exEqualTimeState).state.errors.time
        = some "Please select a future time" ∧
      (handleSubmit exTime 100 NotificationPermission.denied exEqualTimeState).added = none) ∧
    (validateForm exTime 100 exFutureTimeState).time = none :=
  ⟨(time_validation_strictly_future exTime 100 NotificationPermission.denied
      exNoTimeState).1 (by decide),
   (time_validation_strictly_future exTime 100 NotificationPermission.denied
      exEqualTimeState).2.1 (by decide) (by decide),
   (time_validation_strictly_future exTime 100 NotificationPermission.denied
      exFutureTimeState).2.2 (by decide) (by decide)⟩

/-- Case analysis on `handleSubmit`: a run either adds nothing, or is one of
the two `submitSuccess` tails (request path with the requested permission
pending, or direct path with the closure permission unchanged). -/
theorem handleSubmit_added_none_or_success (g : String → Int) (now : Int)
    (out : NotificationPermission) (s : CardState) :
    (handleSubmit g now out s).added = none ∨
    ∃ p, handleSubmit g now out s = submitSuccess g now s p := by
  unfold handleSubmit
  by_cases h0 : noErrors (validateForm g now s) = true
  · by_cases h1 : s.notifications = true ∧ s.perm ≠ NotificationPermission.granted
    · by_cases h2 : out ≠ NotificationPermission.granted
      · left
        simp [h0, h1, h2]
      · right
        exact ⟨out, by simp [h0, h1, h2]⟩
    · right
      exact ⟨s.perm, by simp [h0, h1]⟩
  · left
    simp [h0]

/-- C10: whatever branch created it, the reminder handed to `addReminder`
carries the submitted task text verbatim (untrimmed), and it is an element
of the resulting collection. -/
theorem task_stored_verbatim (g : String → Int) (now : Int)
    (out : NotificationPermission) (s : CardState) (r : Reminder)
    (h : (handleSubmit g now out s).added = some r) :
    r.task = s.task ∧ r ∈ (handleSubmit g now out s).state.reminders := by
  rcases handleSubmit_added_none_or_success g now out s with hn | ⟨p, hp⟩
  · rw [hn] at h
    exact absurd h (by simp)
  · rw [hp] at h ⊢
    simp only [submitSuccess, Option.some.injEq] at h
    subst h
    simp [submitSuccess, addReminder]

/-- A valid draft whose task has surrounding whitespace. -/
def exPaddedState : CardState :=
  { task := "  call mom  ", time := "t2", notifications := false, errors := emptyErrors,
    perm := NotificationPermission.default, reminders := [] }

/-- Witness for C10: the persisted reminder keeps the padding around
`"call mom"`. -/
theorem task_stored_verbatim_witness :
    ({ id := toString (100 : Int), task := "  call mom  ", time := "t2",
       notifications := false, completed := false } : Reminder).task
      = exPaddedState.task ∧
    ({ id := toString (100 : Int), task := "  call mom  ", time := "t2",
       notifications := false, completed := false } : Reminder)
      ∈ (handleSubmit exTime 100 NotificationPermission.denied exPaddedState).state.reminders :=
  task_stored_verbatim exTime 100 NotificationPermission.denied exPaddedState
    { id := toString (100 : Int), task := "  call mom  ", time := "t2",
      notifications := false, completed := false } (by decide)

/-- A valid draft with notifications on while permission is still `default`. -/
def exRequestState : CardState :=
  { task := "call mom", time := "t2", notifications := true, errors := emptyErrors,
    perm := NotificationPermission.default, reminders := [] }

/-- C6 counterexample: with permission initially `default` and the request
resolving to `granted`, the submission succeeds (a reminder is added) yet no
browser notification is shown, because line 187 and `showBrowserNotification`
read the stale closure value of `notificationPermission`. -/
theorem notify_skipped_when_permission_just_granted :
    ((handleSubmit exTime 100 NotificationPermission.granted exRequestState).added).isSome
      = true ∧
    (handleSubmit exTime 100 NotificationPermission.granted exRequestState).notified
      = false := by
  decide

/-- C6 amended: on every successful submission, the browser notification is
surfaced iff notifications are on AND the permission state observed at the
start of the submission was already `granted`; permission obtained by the
request during the same submission does not trigger it. -/
theorem notified_iff_entry_permission_granted (g : String → Int) (now : Int)
    (out : NotificationPermission) (s : CardState)
    (h : (handleSubmit g now out s).added.isSome = true) :
    (handleSubmit g now out s).notified = true ↔
      (s.notifications = true ∧ s.perm = NotificationPermission.granted) := by
  rcases handleSubmit_added_none_or_success g now out s with hn | ⟨p, hp⟩
  · rw [hn] at h
    exact absurd h (by simp)
  · rw [hp]
    simp [submitSuccess]

/-- A valid draft submitted while permission is already granted. -/
def exGrantedState : CardState :=
  { task := "call mom", time := "t2", notifications := true, errors := emptyErrors,
    perm := NotificationPermission.granted, reminders := [] }

/-- Witness for the amended C6: permission granted before submission, so the
notification is shown. -/
theorem notified_iff_entry_permission_granted_witness :
    (handleSubmit exTime 100 NotificationPermission.granted exGrantedState).notified = true :=
  (notified_iff_entry_permission_granted exTime 100 NotificationPermission.granted
    exGrantedState (by decide)).mpr ⟨rfl, rfl⟩

/-- A first valid draft, submitted at clock value `50`. -/
def exFirstDraft : CardState :=
  { task := "water plants", time := "t1", notifications := false, errors := emptyErrors,
    perm := NotificationPermission.default, reminders := [] }

/-- The form re-filled with a second draft after the first submission, the
clock still reading `50` (same millisecond). -/
def exSecondDraft : CardState :=
  { (handleSubmit exTime 50 NotificationPermission.denied exFirstDraft).state with
      task := "call dad", time := "t2" }

/-- C7: two reminders created through the creation path in the same
millisecond (`Date.now()` returning `50` both times) both receive the id
`"50"`, so the store's ids are not pairwise distinct. -/
theorem duplicate_ids_in_same_millisecond :
    ((handleSubmit exTime 50 NotificationPermission.denied exSecondDraft).state.reminders.map
        Reminder.id)
      = [toString (50 : Int), toString (50 : Int)] ∧
    ¬ ((handleSubmit exTime 50 NotificationPermission.denied exSecondDraft).state.reminders.map
        Reminder.id).Nodup := by
  decide

end TaskReminder
